import Mathlib

/-!
Verification of the GameClub frontend's HTTP decorator chain
(`src/services/http_service.ts`) and the legacy-data adapter
(`src/services/api_adapter.ts`).

The decorator chain is modelled as a shallow embedding: each async
method becomes a state-passing function over an explicit `Trace` that
records the observable effects the specification talks about — log
entries appended through the singleton logger, backoff waits performed
via `setTimeout`, the number of times the innermost axios transport was
invoked, a wall clock (`performance.now()`), and the arguments the
innermost transport received.  The transport itself (the axios instance
created by `BasicHttpService`) is modelled by its observable behavior:
the outcome and elapsed time of its n-th invocation.
-/

/-- Logger severities of the singleton logger (`logger.info` / `warn` /
`error` / `debug`). -/
inductive Severity where
  | info
  | warn
  | err
  | debug
deriving DecidableEq, Repr

/-- One log record appended by the logger collaborator. -/
structure LogEntry where
  sev : Severity
  msg : String
deriving DecidableEq, Repr

/-- The four HTTP verbs of the `HttpService` contract. -/
inductive Verb where
  | get
  | post
  | put
  | delete
deriving DecidableEq, Repr

/-- Upper-case method name used in log messages (`"GET"`, …). -/
def Verb.name : Verb → String
  | .get => "GET"
  | .post => "POST"
  | .put => "PUT"
  | .delete => "DELETE"

/-- The JavaScript error universe as the chain sees it: either a
transport failure thrown by the axios call (carrying a payload of
type `ε`), or a plain `new Error(msg)` constructed by the code itself
(the `RetryDecorator`'s synthetic exhaustion error). -/
inductive JsError (ε : Type) where
  | transport : ε → JsError ε
  | plain : String → JsError ε
deriving DecidableEq, Repr

/-- Observable state threaded through one call: the log, the backoff
waits performed (in milliseconds), how many times the innermost
transport was invoked, the `performance.now()` wall clock (in
milliseconds), and the argument tuples `(verb, url, data?, config?)`
received by the innermost transport. -/
structure Trace (Cfg Body : Type) where
  logs : List LogEntry
  waits : List Nat
  calls : Nat
  clock : Nat
  received : List (Verb × String × Option Body × Option Cfg)
deriving DecidableEq, Repr

/-- An async method body: a state-passing computation producing either
a value or a thrown `JsError`. -/
def Comp (ε Cfg Body α : Type) :=
  Trace Cfg Body → Except (JsError ε) α × Trace Cfg Body

/-- Append one log record (a `logger.<sev>(msg)` call). -/
def Trace.log (τ : Trace Cfg Body) (sev : Severity) (msg : String) :
    Trace Cfg Body :=
  { τ with logs := τ.logs ++ [⟨sev, msg⟩] }

/-- Perform one backoff wait of `d` milliseconds
(`await new Promise(resolve => setTimeout(resolve, d))`). -/
def Trace.wait (τ : Trace Cfg Body) (d : Nat) : Trace Cfg Body :=
  { τ with waits := τ.waits ++ [d], clock := τ.clock + d }

/-- Model of the axios instance: the outcome and elapsed wall-clock
time of its n-th invocation (1-indexed).  A test delegate "failing the
first k-1 times and succeeding on attempt k" is a `Transport` whose
`behavior` is `Except.error` below `k` and `Except.ok` at `k`. -/
structure Transport (ε α : Type) where
  behavior : Nat → Except ε α
  elapsed : Nat → Nat

/-- The `HttpService` interface: four verb methods.  `get` and `delete`
take a url and optional config; `post` and `put` additionally take an
optional data payload. -/
structure Service (ε Cfg Body α : Type) where
  get : String → Option Cfg → Comp ε Cfg Body α
  post : String → Option Body → Option Cfg → Comp ε Cfg Body α
  put : String → Option Body → Option Cfg → Comp ε Cfg Body α
  delete : String → Option Cfg → Comp ε Cfg Body α

/-- One invocation of the axios instance: bumps the invocation counter,
advances the clock by the call's elapsed time, records the received
arguments, and returns the transport's outcome (failures are thrown as
transport errors). -/
def axiosCall (t : Transport ε α) (v : Verb) (url : String)
    (data : Option Body) (config : Option Cfg) : Comp ε Cfg Body α :=
  fun τ =>
    let n := τ.calls + 1
    ((t.behavior n).mapError JsError.transport,
     { τ with
        calls := n
        clock := τ.clock + t.elapsed n
        received := τ.received ++ [(v, url, data, config)] })

/-- `BasicHttpService`: the innermost executor.  Its constructor builds
an axios instance for `baseURL` (with a 10000 ms timeout); the
instance's observable behavior is the `Transport` model.  Each method
performs exactly one underlying call and unwraps `response.data`. -/
def BasicHttpService (baseURL : String) (t : Transport ε α) :
    Service ε Cfg Body α where
  get url config := axiosCall t Verb.get url none config
  post url data config := axiosCall t Verb.post url data config
  put url data config := axiosCall t Verb.put url data config
  delete url config := axiosCall t Verb.delete url none config

/-- The body shared by the four `LoggingDecorator` methods: log an
informational "before" entry naming the verb and url, delegate, then
log an informational success entry and return the result unchanged, or
log an error entry (verb, url, stringified failure) and rethrow the
identical failure.  `showE` models JavaScript's string conversion of
the caught error (template `${error}`). -/
def loggedCall (showE : JsError ε → String) (name url : String)
    (inner : Comp ε Cfg Body α) : Comp ε Cfg Body α :=
  fun τ =>
    match inner (τ.log Severity.info (name ++ " zahtjev: " ++ url)) with
    | (Except.ok r, τ₂) =>
        (Except.ok r,
         τ₂.log Severity.info (name ++ " zahtjev uspješan: " ++ url))
    | (Except.error e, τ₂) =>
        (Except.error e,
         τ₂.log Severity.err
           (name ++ " zahtjev neuspješan: " ++ url ++ " - " ++ showE e))

/-- `LoggingDecorator`: wraps a service, logging before and after each
call (source lines 61–111; the four methods are identical up to the
verb name, factored here through `loggedCall`). -/
def LoggingDecorator (showE : JsError ε → String)
    (httpService : Service ε Cfg Body α) : Service ε Cfg Body α where
  get url config := loggedCall showE "GET" url (httpService.get url config)
  post url data config :=
    loggedCall showE "POST" url (httpService.post url data config)
  put url data config :=
    loggedCall showE "PUT" url (httpService.put url data config)
  delete url config :=
    loggedCall showE "DELETE" url (httpService.delete url config)

/-- `TimingDecorator.measureTime`: captures `performance.now()`, runs
the delegate, and — only on the success continuation (`.then`) — logs a
debug entry with the method name and elapsed milliseconds.  The source
renders the duration with `toFixed(2)`; durations here are whole
milliseconds, rendered with `toString`.  A rejected promise bypasses
the `.then` callback, so no timing entry is logged on failure. -/
def measureTime (methodName : String) (fn : Comp ε Cfg Body α) :
    Comp ε Cfg Body α :=
  fun τ =>
    let start := τ.clock
    match fn τ with
    | (Except.ok r, τ₂) =>
        (Except.ok r,
         τ₂.log Severity.debug
           (methodName ++ " vrijeme izvršavanja: " ++
             toString (τ₂.clock - start) ++ "ms"))
    | (Except.error e, τ₂) => (Except.error e, τ₂)

/-- `TimingDecorator`: wraps a service, measuring each call with
`measureTime` (source lines 117–144). -/
def TimingDecorator (httpService : Service ε Cfg Body α) :
    Service ε Cfg Body α where
  get url config := measureTime "GET" (httpService.get url config)
  post url data config := measureTime "POST" (httpService.post url data config)
  put url data config := measureTime "PUT" (httpService.put url data config)
  delete url config := measureTime "DELETE" (httpService.delete url config)

/-- `RetryDecorator.retryOperation`'s `for` loop, unrolled as recursion
on the attempt counter: for `attempt = 1` to `maxRetries`, try the
operation; on failure at the last attempt log an error and rethrow the
caught failure; on an earlier failure log a warning, wait
`1000 * attempt` ms, and continue.  If the loop exits without
returning (only possible when `maxRetries < 1`), throw
`new Error("Retry operacija neuspješna")`. -/
def retryOperationAux (operation : Comp ε Cfg Body α) (methodName : String)
    (maxRetries : Nat) (attempt : Nat) : Comp ε Cfg Body α :=
  fun τ =>
    if attempt ≤ maxRetries then
      match operation τ with
      | (Except.ok r, τ₂) => (Except.ok r, τ₂)
      | (Except.error e, τ₂) =>
          if attempt = maxRetries then
            (Except.error e,
             τ₂.log Severity.err
               (methodName ++ " neuspješno nakon " ++
                 toString maxRetries ++ " pokušaja"))
          else
            retryOperationAux operation methodName maxRetries (attempt + 1)
              ((τ₂.log Severity.warn
                 (methodName ++ " pokušaj " ++ toString attempt ++
                   " neuspješan, pokušavam ponovno...")).wait
                (1000 * attempt))
    else
      (Except.error (JsError.plain "Retry operacija neuspješna"), τ)
termination_by maxRetries + 1 - attempt
decreasing_by omega

/-- `RetryDecorator.retryOperation`: run the loop starting at
attempt 1. -/
def retryOperation (operation : Comp ε Cfg Body α) (methodName : String)
    (maxRetries : Nat) : Comp ε Cfg Body α :=
  retryOperationAux operation methodName maxRetries 1

/-- `RetryDecorator`: wraps a service, retrying each call up to
`maxRetries` times (constructor default `maxRetries = 3`). -/
def RetryDecorator (httpService : Service ε Cfg Body α)
    (maxRetries : Nat := 3) : Service ε Cfg Body α where
  get url config := retryOperation (httpService.get url config) "GET" maxRetries
  post url data config :=
    retryOperation (httpService.post url data config) "POST" maxRetries
  put url data config :=
    retryOperation (httpService.put url data config) "PUT" maxRetries
  delete url config :=
    retryOperation (httpService.delete url config) "DELETE" maxRetries

/-- `createHttpService`: composes the fixed pipeline
`BasicHttpService → LoggingDecorator → TimingDecorator → RetryDecorator`
and returns the outermost (retry) layer.  The `RetryDecorator` is
instantiated without an explicit maximum, so its default applies. -/
def createHttpService (baseURL : String) (showE : JsError ε → String)
    (t : Transport ε α) : Service ε Cfg Body α :=
  let basicService := BasicHttpService baseURL t
  let withLogging := LoggingDecorator showE basicService
  let withTiming := TimingDecorator withLogging
  let withRetry := RetryDecorator withTiming
  withRetry

/-- Dispatch one verb call on a service (used to quantify theorems over
all four verbs uniformly; `data` is ignored by `get` and `delete`,
which take no payload). -/
def callVerb (v : Verb) (s : Service ε Cfg Body α) (url : String)
    (data : Option Body) (config : Option Cfg) : Comp ε Cfg Body α :=
  match v with
  | .get => s.get url config
  | .post => s.post url data config
  | .put => s.put url data config
  | .delete => s.delete url config

/-- The payload the innermost executor receives for a verb: `get` and
`delete` carry none. -/
def Verb.payload (v : Verb) (data : Option Body) : Option Body :=
  match v with
  | .get => none
  | .post => data
  | .put => data
  | .delete => none

/-- The full composed stack with an explicit retry budget:
`createHttpService` is this stack at the default budget. -/
def composedService (showE : JsError ε → String) (baseURL : String)
    (t : Transport ε α) (maxRetries : Nat) : Service ε Cfg Body α :=
  RetryDecorator
    (TimingDecorator (LoggingDecorator showE (BasicHttpService baseURL t)))
    maxRetries

/-- The `LoggingDecorator`'s "before" entry for a call. -/
def beforeEntry (v : Verb) (url : String) : LogEntry :=
  ⟨Severity.info, v.name ++ " zahtjev: " ++ url⟩

/-- The `LoggingDecorator`'s success entry for a call. -/
def successEntry (v : Verb) (url : String) : LogEntry :=
  ⟨Severity.info, v.name ++ " zahtjev uspješan: " ++ url⟩

/-- The `LoggingDecorator`'s error entry for a failed call. -/
def failEntry (showE : JsError ε → String) (v : Verb) (url : String)
    (e : JsError ε) : LogEntry :=
  ⟨Severity.err, v.name ++ " zahtjev neuspješan: " ++ url ++ " - " ++ showE e⟩

/-- The `TimingDecorator`'s debug entry for a call that took `d` ms. -/
def timingEntry (v : Verb) (d : Nat) : LogEntry :=
  ⟨Severity.debug, v.name ++ " vrijeme izvršavanja: " ++ toString d ++ "ms"⟩

/-- The `RetryDecorator`'s warning entry after a failed, non-final
attempt. -/
def retryWarnEntry (v : Verb) (attempt : Nat) : LogEntry :=
  ⟨Severity.warn,
   v.name ++ " pokušaj " ++ toString attempt ++
     " neuspješan, pokušavam ponovno..."⟩

/-- The `RetryDecorator`'s error entry after the final failed
attempt. -/
def retryFailEntry (v : Verb) (maxRetries : Nat) : LogEntry :=
  ⟨Severity.err,
   v.name ++ " neuspješno nakon " ++ toString maxRetries ++ " pokušaja"⟩

/-! The legacy-data adapter (`src/services/api_adapter.ts`)

`GameData`/`Player` are the modern shapes, `LegacyGameData`/
`LegacyPlayer` the legacy ones.  TypeScript `number` fields are
modelled as `Int`; the `"active" | "inactive"` string union as a
two-constructor type.  The adapter methods also call `logger.info`;
each conversion returns the converted record together with the log
messages it emits. -/

/-- Modern `Player` shape. -/
structure Player where
  id : Int
  name : String
  score : Int
deriving DecidableEq, Repr

/-- The `"active" | "inactive"` status union of `GameData`. -/
inductive GameStatus where
  | active
  | inactive
deriving DecidableEq, Repr

/-- Modern `GameData` shape. -/
structure GameData where
  id : Int
  title : String
  players : List Player
  status : GameStatus
  createdAt : String
deriving DecidableEq, Repr

/-- Legacy `LegacyPlayer` shape. -/
structure LegacyPlayer where
  player_id : Int
  player_name : String
  player_score : Int
deriving DecidableEq, Repr

/-- Legacy `LegacyGameData` shape. -/
structure LegacyGameData where
  game_id : Int
  game_name : String
  player_list : List LegacyPlayer
  is_active : Bool
  creation_date : String
deriving DecidableEq, Repr

/-- `LegacyGameAdapter.adaptPlayer`: legacy player → modern player. -/
def adaptPlayer (legacyPlayer : LegacyPlayer) : Player :=
  { id := legacyPlayer.player_id
    name := legacyPlayer.player_name
    score := legacyPlayer.player_score }

/-- `LegacyGameAdapter.adaptGame`: legacy game → modern game, plus the
two `logger.info` messages it emits. -/
def adaptGame (legacyGame : LegacyGameData) : GameData × List String :=
  let adaptedGame : GameData :=
    { id := legacyGame.game_id
      title := legacyGame.game_name
      players := legacyGame.player_list.map (fun player => adaptPlayer player)
      status := if legacyGame.is_active then GameStatus.active
                else GameStatus.inactive
      createdAt := legacyGame.creation_date }
  (adaptedGame,
   ["Adaptiranje legacy igre: " ++ legacyGame.game_name,
    "Igra uspješno adaptirana: " ++ adaptedGame.title])

/-- `LegacyGameAdapter.adaptPlayerToLegacy`: modern player → legacy
player. -/
def adaptPlayerToLegacy (player : Player) : LegacyPlayer :=
  { player_id := player.id
    player_name := player.name
    player_score := player.score }

/-- `LegacyGameAdapter.adaptToLegacy`: modern game → legacy game, plus
the two `logger.info` messages it emits.  `is_active` is
`game.status === "active"`. -/
def adaptToLegacy (game : GameData) : LegacyGameData × List String :=
  let legacyGame : LegacyGameData :=
    { game_id := game.id
      game_name := game.title
      player_list := game.players.map (fun player => adaptPlayerToLegacy player)
      is_active := game.status = GameStatus.active
      creation_date := game.createdAt }
  (legacyGame,
   ["Konverzija u legacy format: " ++ game.title, "Konverzija uspješna"])

/-! Characterization lemmas -/

/-- One successful call through `LoggingDecorator ∘ BasicHttpService`:
the counter, clock and receipt advance by one transport invocation and
exactly the "before" and success entries are logged, in that order. -/
theorem loggedBasic_ok (showE : JsError ε → String) (baseURL url : String)
    (data : Option Body) (config : Option Cfg) (t : Transport ε α) (v : Verb)
    (τ : Trace Cfg Body) (r : α)
    (h : t.behavior (τ.calls + 1) = Except.ok r) :
    callVerb v (LoggingDecorator showE (BasicHttpService baseURL t))
        url data config τ =
      (Except.ok r,
       { τ with
          calls := τ.calls + 1
          clock := τ.clock + t.elapsed (τ.calls + 1)
          received := τ.received ++ [(v, url, v.payload data, config)]
          logs := τ.logs ++ [beforeEntry v url, successEntry v url] }) := by
  cases v <;>
    simp [callVerb, LoggingDecorator, BasicHttpService, loggedCall, axiosCall,
      Trace.log, h, Except.mapError, Verb.payload, beforeEntry, successEntry,
      Verb.name]

/-- One failing call through `LoggingDecorator ∘ BasicHttpService`:
exactly the "before" and error entries are logged and the transport
failure is rethrown identically. -/
theorem loggedBasic_fail (showE : JsError ε → String) (baseURL url : String)
    (data : Option Body) (config : Option Cfg) (t : Transport ε α) (v : Verb)
    (τ : Trace Cfg Body) (e : ε)
    (h : t.behavior (τ.calls + 1) = Except.error e) :
    callVerb v (LoggingDecorator showE (BasicHttpService baseURL t))
        url data config τ =
      (Except.error (JsError.transport e),
       { τ with
          calls := τ.calls + 1
          clock := τ.clock + t.elapsed (τ.calls + 1)
          received := τ.received ++ [(v, url, v.payload data, config)]
          logs := τ.logs ++
            [beforeEntry v url,
             failEntry showE v url (JsError.transport e)] }) := by
  cases v <;>
    simp [callVerb, LoggingDecorator, BasicHttpService, loggedCall, axiosCall,
      Trace.log, h, Except.mapError, Verb.payload, beforeEntry, failEntry,
      Verb.name]

/-- One successful call through the inner three-layer stack
`TimingDecorator ∘ LoggingDecorator ∘ BasicHttpService`: on top of the
logging entries, exactly one timing debug entry is appended, after the
success entry. -/
theorem innerStack_ok (showE : JsError ε → String) (baseURL url : String)
    (data : Option Body) (config : Option Cfg) (t : Transport ε α) (v : Verb)
    (τ : Trace Cfg Body) (r : α)
    (h : t.behavior (τ.calls + 1) = Except.ok r) :
    callVerb v
        (TimingDecorator (LoggingDecorator showE (BasicHttpService baseURL t)))
        url data config τ =
      (Except.ok r,
       { τ with
          calls := τ.calls + 1
          clock := τ.clock + t.elapsed (τ.calls + 1)
          received := τ.received ++ [(v, url, v.payload data, config)]
          logs := τ.logs ++
            [beforeEntry v url, successEntry v url,
             timingEntry v (t.elapsed (τ.calls + 1))] }) := by
  have hbase := loggedBasic_ok showE baseURL url data config t v τ r h
  cases v <;>
    simp_all [callVerb, TimingDecorator, measureTime, Trace.log, timingEntry,
      Verb.name]

/-- One failing call through the inner three-layer stack: the timing
layer's `.then` continuation is skipped, so the trace is exactly that
of the logging layer and the failure passes through unchanged. -/
theorem innerStack_fail (showE : JsError ε → String) (baseURL url : String)
    (data : Option Body) (config : Option Cfg) (t : Transport ε α) (v : Verb)
    (τ : Trace Cfg Body) (e : ε)
    (h : t.behavior (τ.calls + 1) = Except.error e) :
    callVerb v
        (TimingDecorator (LoggingDecorator showE (BasicHttpService baseURL t)))
        url data config τ =
      (Except.error (JsError.transport e),
       { τ with
          calls := τ.calls + 1
          clock := τ.clock + t.elapsed (τ.calls + 1)
          received := τ.received ++ [(v, url, v.payload data, config)]
          logs := τ.logs ++
            [beforeEntry v url,
             failEntry showE v url (JsError.transport e)] }) := by
  have hbase := loggedBasic_fail showE baseURL url data config t v τ e h
  cases v <;>
    simp_all [callVerb, TimingDecorator, measureTime, Trace.log, Verb.name]

/-- Dispatching a verb on a `RetryDecorator` runs `retryOperation` on
the corresponding dispatch of the wrapped service. -/
theorem callVerb_RetryDecorator (s : Service ε Cfg Body α) (maxRetries : Nat)
    (v : Verb) (url : String) (data : Option Body) (config : Option Cfg) :
    callVerb v (RetryDecorator s maxRetries) url data config =
      retryOperation (callVerb v s url data config) v.name maxRetries := by
  cases v <;> rfl

/-- Unfolding `List.range'` by one step. -/
theorem range'_cons (a n : Nat) :
    List.range' a (n + 1) = a :: List.range' (a + 1) n := rfl

set_option maxRecDepth 4000

/-- Retry loop, success case: if the transport fails on invocations
below `k` and succeeds on invocation `k ≤ maxRetries`, then starting
the loop at `attempt = calls + 1 ≤ k` returns the success value, the
transport ends up invoked exactly `k` times, and the backoff waits
performed are `1000·attempt, …, 1000·(k-1)` milliseconds. -/
theorem retryAux_ok (showE : JsError ε → String) (baseURL url : String)
    (data : Option Body) (config : Option Cfg) (t : Transport ε α) (v : Verb)
    (k maxRetries : Nat) (errOf : Nat → ε) (r : α)
    (hkm : k ≤ maxRetries)
    (hfail : ∀ n, n < k → t.behavior n = Except.error (errOf n))
    (hok : t.behavior k = Except.ok r) :
    ∀ d attempt τ, k - attempt = d → 1 ≤ attempt → attempt ≤ k →
      τ.calls + 1 = attempt →
      ∃ τf,
        retryOperationAux
            (callVerb v
              (TimingDecorator
                (LoggingDecorator showE (BasicHttpService baseURL t)))
              url data config)
            v.name maxRetries attempt τ = (Except.ok r, τf) ∧
        τf.calls = k ∧
        τf.waits = τ.waits ++
          (List.range' attempt (k - attempt)).map (fun i => 1000 * i) := by
  intro d
  induction d with
  | zero =>
      intro attempt τ hd h1 hak hτ
      have hattk : attempt = k := by omega
      subst hattk
      have hb : t.behavior (τ.calls + 1) = Except.ok r := by rw [hτ]; exact hok
      have hstep := innerStack_ok showE baseURL url data config t v τ r hb
      refine ⟨{ τ with
                 calls := τ.calls + 1
                 clock := τ.clock + t.elapsed (τ.calls + 1)
                 received := τ.received ++ [(v, url, v.payload data, config)]
                 logs := τ.logs ++
                   [beforeEntry v url, successEntry v url,
                    timingEntry v (t.elapsed (τ.calls + 1))] }, ?_, ?_, ?_⟩
      · rw [retryOperationAux, if_pos (by omega : attempt ≤ maxRetries)]
        simp only [hstep]
      · simp [hτ]
      · simp [hd]
  | succ d ih =>
      intro attempt τ hd h1 hak hτ
      have hlt : attempt < k := by omega
      have hb : t.behavior (τ.calls + 1) = Except.error (errOf attempt) := by
        rw [hτ]; exact hfail attempt hlt
      have hstep := innerStack_fail showE baseURL url data config t v τ
        (errOf attempt) hb
      obtain ⟨τf, heq, hcalls, hwaits⟩ := ih (attempt + 1)
        ((({ τ with
              calls := τ.calls + 1
              clock := τ.clock + t.elapsed (τ.calls + 1)
              received := τ.received ++ [(v, url, v.payload data, config)]
              logs := τ.logs ++
                [beforeEntry v url,
                 failEntry showE v url
                   (JsError.transport (errOf attempt))] }).log Severity.warn
            (v.name ++ " pokušaj " ++ toString attempt ++
              " neuspješan, pokušavam ponovno...")).wait (1000 * attempt))
        (by omega) (by omega) (by omega)
        (by simp only [Trace.log, Trace.wait]; omega)
      refine ⟨τf, ?_, hcalls, ?_⟩
      · rw [retryOperationAux, if_pos (by omega : attempt ≤ maxRetries)]
        simp only [hstep]
        rw [if_neg (by omega : ¬ attempt = maxRetries)]
        exact heq
      · rw [hwaits]
        have hk : k - attempt = (k - (attempt + 1)) + 1 := by omega
        rw [hk, range'_cons]
        simp [Trace.log, Trace.wait, List.append_assoc]

/-- Retry loop, exhaustion case: if the transport fails on every
invocation, the loop started at `attempt = calls + 1 ≤ maxRetries`
performs all remaining attempts and rethrows exactly the transport
failure of the final (maxRetries-th) invocation, with the transport
invoked `maxRetries` times in total. -/
theorem retryAux_exhaust (showE : JsError ε → String) (baseURL url : String)
    (data : Option Body) (config : Option Cfg) (t : Transport ε α) (v : Verb)
    (maxRetries : Nat) (errOf : Nat → ε)
    (hfail : ∀ n, t.behavior n = Except.error (errOf n)) :
    ∀ d attempt τ, maxRetries - attempt = d → 1 ≤ attempt →
      attempt ≤ maxRetries → τ.calls + 1 = attempt →
      ∃ τf,
        retryOperationAux
            (callVerb v
              (TimingDecorator
                (LoggingDecorator showE (BasicHttpService baseURL t)))
              url data config)
            v.name maxRetries attempt τ =
          (Except.error (JsError.transport (errOf maxRetries)), τf) ∧
        τf.calls = maxRetries := by
  intro d
  induction d with
  | zero =>
      intro attempt τ hd h1 hak hτ
      have hattm : attempt = maxRetries := by omega
      subst hattm
      have hb : t.behavior (τ.calls + 1) = Except.error (errOf attempt) := by
        rw [hτ]; exact hfail attempt
      have hstep := innerStack_fail showE baseURL url data config t v τ
        (errOf attempt) hb
      refine ⟨({ τ with
                  calls := τ.calls + 1
                  clock := τ.clock + t.elapsed (τ.calls + 1)
                  received := τ.received ++ [(v, url, v.payload data, config)]
                  logs := τ.logs ++
                    [beforeEntry v url,
                     failEntry showE v url
                       (JsError.transport (errOf attempt))] }).log Severity.err
          (v.name ++ " neuspješno nakon " ++ toString attempt ++ " pokušaja"),
        ?_, ?_⟩
      · rw [retryOperationAux, if_pos (le_refl attempt)]
        simp [hstep]
      · simp [Trace.log, hτ]
  | succ d ih =>
      intro attempt τ hd h1 hak hτ
      have hb : t.behavior (τ.calls + 1) = Except.error (errOf attempt) := by
        rw [hτ]; exact hfail attempt
      have hstep := innerStack_fail showE baseURL url data config t v τ
        (errOf attempt) hb
      obtain ⟨τf, heq, hcalls⟩ := ih (attempt + 1)
        ((({ τ with
              calls := τ.calls + 1
              clock := τ.clock + t.elapsed (τ.calls + 1)
              received := τ.received ++ [(v, url, v.payload data, config)]
              logs := τ.logs ++
                [beforeEntry v url,
                 failEntry showE v url
                   (JsError.transport (errOf attempt))] }).log Severity.warn
            (v.name ++ " pokušaj " ++ toString attempt ++
              " neuspješan, pokušavam ponovno...")).wait (1000 * attempt))
        (by omega) (by omega) (by omega)
        (by simp only [Trace.log, Trace.wait]; omega)
      refine ⟨τf, ?_, hcalls⟩
      rw [retryOperationAux, if_pos (by omega : attempt ≤ maxRetries)]
      simp only [hstep]
      rw [if_neg (by omega : ¬ attempt = maxRetries)]
      exact heq

/-- Retry loop, receipt invariant: if one delegate call appends exactly
one receipt `entry` to the trace (whatever its outcome), then the whole
loop appends some number of copies of that same receipt and nothing
else. -/
theorem retryAux_received (op : Comp ε Cfg Body α) (methodName : String)
    (entry : Verb × String × Option Body × Option Cfg)
    (hop : ∀ τ, ((op τ).2).received = τ.received ++ [entry]) :
    ∀ d maxRetries attempt τ, maxRetries + 1 - attempt = d →
      ∃ m, ((retryOperationAux op methodName maxRetries attempt τ).2).received =
        τ.received ++ List.replicate m entry := by
  intro d
  induction d with
  | zero =>
      intro maxRetries attempt τ hd
      refine ⟨0, ?_⟩
      rw [retryOperationAux, if_neg (by omega : ¬ attempt ≤ maxRetries)]
      simp
  | succ d ih =>
      intro maxRetries attempt τ hd
      by_cases hle : attempt ≤ maxRetries
      · have hτ₂ := hop τ
        rcases hopτ : op τ with ⟨res, τ₂⟩
        rw [hopτ] at hτ₂
        rcases res with e | r
        · by_cases hlast : attempt = maxRetries
          · refine ⟨1, ?_⟩
            rw [retryOperationAux, if_pos hle]
            simp only [hopτ]
            rw [if_pos hlast]
            simpa [Trace.log] using hτ₂
          · obtain ⟨m, hm⟩ := ih maxRetries (attempt + 1)
              ((τ₂.log Severity.warn
                 (methodName ++ " pokušaj " ++ toString attempt ++
                   " neuspješan, pokušavam ponovno...")).wait (1000 * attempt))
              (by omega)
            refine ⟨m + 1, ?_⟩
            rw [retryOperationAux, if_pos hle]
            simp only [hopτ]
            rw [if_neg hlast]
            rw [hm]
            simp only [Prod.snd] at hτ₂
            simp [Trace.log, Trace.wait, hτ₂, List.replicate_succ,
              List.append_assoc]
        · refine ⟨1, ?_⟩
          rw [retryOperationAux, if_pos hle]
          simp only [hopτ]
          simpa using hτ₂
      · refine ⟨0, ?_⟩
        rw [retryOperationAux, if_neg hle]
        simp

/-- One call through the inner three-layer stack appends exactly one
receipt — the caller's verb, url, payload and options, unchanged —
whatever the transport's outcome. -/
theorem innerStack_received (showE : JsError ε → String)
    (baseURL url : String) (data : Option Body) (config : Option Cfg)
    (t : Transport ε α) (v : Verb) (τ : Trace Cfg Body) :
    ((callVerb v
        (TimingDecorator (LoggingDecorator showE (BasicHttpService baseURL t)))
        url data config τ).2).received =
      τ.received ++ [(v, url, v.payload data, config)] := by
  rcases hb : t.behavior (τ.calls + 1) with e | r
  · rw [innerStack_fail showE baseURL url data config t v τ e hb]
  · rw [innerStack_ok showE baseURL url data config t v τ r hb]

/-- Dispatching a verb on the composed service runs the retry loop,
from attempt 1, over the inner three-layer stack. -/
theorem callVerb_composedService (showE : JsError ε → String)
    (baseURL url : String) (data : Option Body) (config : Option Cfg)
    (t : Transport ε α) (v : Verb) (maxRetries : Nat) :
    callVerb v (composedService showE baseURL t maxRetries) url data config =
      retryOperationAux
        (callVerb v
          (TimingDecorator (LoggingDecorator showE (BasicHttpService baseURL t)))
          url data config)
        v.name maxRetries 1 := by
  rw [composedService, callVerb_RetryDecorator]
  rfl

/-! Concrete material for witnesses -/

/-- A concrete stringification of errors, for witness instances. -/
def natShow : JsError Nat → String
  | .transport n => "Error: " ++ toString n
  | .plain m => m

/-- The empty starting trace at concrete types. -/
def τ0 : Trace Nat Nat :=
  { logs := [], waits := [], calls := 0, clock := 0, received := [] }

/-- A transport that fails its first invocation (with payload 1) and
succeeds from the second on, returning 7; every call takes 5 ms. -/
def tFlaky : Transport Nat Nat :=
  { behavior := fun n => if n < 2 then Except.error n else Except.ok 7
    elapsed := fun _ => 5 }

/-- A transport that always succeeds, returning 7 in 5 ms. -/
def tOk : Transport Nat Nat :=
  { behavior := fun _ => Except.ok 7, elapsed := fun _ => 5 }

/-- A transport that always fails, with payload n on invocation n. -/
def tBad : Transport Nat Nat :=
  { behavior := fun n => Except.error n, elapsed := fun _ => 5 }

/-! The claims -/

/-- Claim C1: for every verb operation of the composed service and
every retry budget `maxRetries ≥ 1`, if the wrapped delegate fails on
the first `k-1` invocations and succeeds on invocation `k ≤ maxRetries`,
the composed call returns the delegate's success value, the delegate is
invoked exactly `k` times, and exactly the `k-1` backoff waits
`1000·1, …, 1000·(k-1)` milliseconds occur between attempts (one time
unit = 1000 ms, so attempt `j`'s post-failure delay is `j` units). -/
theorem retry_success_property (showE : JsError ε → String)
    (baseURL url : String) (data : Option Body) (config : Option Cfg)
    (t : Transport ε α) (v : Verb) (k maxRetries : Nat) (errOf : Nat → ε)
    (r : α) (τ : Trace Cfg Body)
    (hk1 : 1 ≤ k) (hkm : k ≤ maxRetries)
    (hfail : ∀ n, n < k → t.behavior n = Except.error (errOf n))
    (hok : t.behavior k = Except.ok r) (hτ : τ.calls = 0) :
    (callVerb v (composedService showE baseURL t maxRetries)
        url data config τ).1 = Except.ok r ∧
    ((callVerb v (composedService showE baseURL t maxRetries)
        url data config τ).2).calls = k ∧
    ((callVerb v (composedService showE baseURL t maxRetries)
        url data config τ).2).waits =
      τ.waits ++ (List.range' 1 (k - 1)).map (fun i => 1000 * i) := by
  obtain ⟨τf, heq, hcalls, hwaits⟩ := retryAux_ok showE baseURL url data config
    t v k maxRetries errOf r hkm hfail hok (k - 1) 1 τ (by omega) (by omega)
    (by omega) (by omega)
  rw [callVerb_composedService, heq]
  exact ⟨rfl, hcalls, hwaits⟩

/-- Witness for C1: budget 3, delegate fails once then succeeds on
attempt 2 → value 7 returned, 2 invocations, one 1000 ms wait. -/
theorem retry_success_property_witness :
    (callVerb Verb.get (composedService natShow "https://api" tFlaky 3)
        "/games" none none τ0).1 = Except.ok 7 ∧
    ((callVerb Verb.get (composedService natShow "https://api" tFlaky 3)
        "/games" none none τ0).2).calls = 2 ∧
    ((callVerb Verb.get (composedService natShow "https://api" tFlaky 3)
        "/games" none none τ0).2).waits =
      τ0.waits ++ (List.range' 1 (2 - 1)).map (fun i => 1000 * i) := by
  exact retry_success_property natShow "https://api" "/games" none none tFlaky
    Verb.get 2 3 (fun n => n) 7 τ0 (by omega) (by omega)
    (by intro n hn; simp [tFlaky, hn]) (by simp [tFlaky]) rfl

/-- Claim C2: for every verb and budget `maxRetries ≥ 1`, if the
delegate fails on every invocation, the composed call invokes the
delegate exactly `maxRetries` times and the failure it raises is the
very failure the delegate produced on the last attempt — the transport
error of invocation `maxRetries`, not a synthetic wrapper error. -/
theorem retry_exhaustion_property (showE : JsError ε → String)
    (baseURL url : String) (data : Option Body) (config : Option Cfg)
    (t : Transport ε α) (v : Verb) (maxRetries : Nat) (errOf : Nat → ε)
    (τ : Trace Cfg Body)
    (hm : 1 ≤ maxRetries)
    (hfail : ∀ n, t.behavior n = Except.error (errOf n))
    (hτ : τ.calls = 0) :
    (callVerb v (composedService showE baseURL t maxRetries)
        url data config τ).1 =
      Except.error (JsError.transport (errOf maxRetries)) ∧
    ((callVerb v (composedService showE baseURL t maxRetries)
        url data config τ).2).calls = maxRetries := by
  obtain ⟨τf, heq, hcalls⟩ := retryAux_exhaust showE baseURL url data config
    t v maxRetries errOf hfail (maxRetries - 1) 1 τ (by omega) (by omega)
    (by omega) (by omega)
  rw [callVerb_composedService, heq]
  exact ⟨rfl, hcalls⟩

/-- Witness for C2: budget 3, always-failing delegate → the raised
failure is the transport error of invocation 3 and the delegate ran
3 times. -/
theorem retry_exhaustion_property_witness :
    (callVerb Verb.post (composedService natShow "https://api" tBad 3)
        "/games" (some 1) none τ0).1 =
      Except.error (JsError.transport 3) ∧
    ((callVerb Verb.post (composedService natShow "https://api" tBad 3)
        "/games" (some 1) none τ0).2).calls = 3 := by
  exact retry_exhaustion_property natShow "https://api" "/games" (some 1) none
    tBad Verb.post 3 (fun n => n) τ0 (by omega) (fun n => rfl) rfl

/-- Claim C7: if the retry wrapper's budget is below 1, the delegate is
never invoked (the whole trace is untouched) and the wrapper fails with
the synthetic generic exhaustion error
`new Error("Retry operacija neuspješna")`, which is distinct from every
transport failure. -/
theorem retry_zero_budget (s : Service ε Cfg Body α) (v : Verb)
    (url : String) (data : Option Body) (config : Option Cfg)
    (maxRetries : Nat) (τ : Trace Cfg Body) (hm : maxRetries < 1) :
    callVerb v (RetryDecorator s maxRetries) url data config τ =
      (Except.error (JsError.plain "Retry operacija neuspješna"), τ) ∧
    ∀ e : ε, (JsError.plain "Retry operacija neuspješna" : JsError ε) ≠
      JsError.transport e := by
  constructor
  · rw [callVerb_RetryDecorator, retryOperation, retryOperationAux,
      if_neg (by omega : ¬ 1 ≤ maxRetries)]
  · intro e h
    exact JsError.noConfusion h

/-- Witness for C7: budget 0 over a live service → synthetic failure,
untouched trace. -/
theorem retry_zero_budget_witness :
    callVerb Verb.get
        (RetryDecorator
          (BasicHttpService "https://api" tOk : Service Nat Nat Nat Nat) 0)
        "/games" none none τ0 =
      (Except.error (JsError.plain "Retry operacija neuspješna"), τ0) ∧
    ∀ e : Nat, (JsError.plain "Retry operacija neuspješna" : JsError Nat) ≠
      JsError.transport e := by
  exact retry_zero_budget (BasicHttpService "https://api" tOk) Verb.get
    "/games" none none 0 τ0 (by omega)

/-- Claim C5: for every verb and path, when the wrapped delegate (the
executor) fails, the logging wrapper emits exactly one informational
"before" entry and one error-level entry (verb, path and failure
detail), in that order and nothing else, and re-raises a failure equal
to the delegate's failure — never swallowing or transforming it. -/
theorem logging_failure_observability (showE : JsError ε → String)
    (baseURL url : String) (data : Option Body) (config : Option Cfg)
    (t : Transport ε α) (v : Verb) (τ : Trace Cfg Body) (e : ε)
    (h : t.behavior (τ.calls + 1) = Except.error e) :
    callVerb v (LoggingDecorator showE (BasicHttpService baseURL t))
        url data config τ =
      (Except.error (JsError.transport e),
       { τ with
          calls := τ.calls + 1
          clock := τ.clock + t.elapsed (τ.calls + 1)
          received := τ.received ++ [(v, url, v.payload data, config)]
          logs := τ.logs ++
            [beforeEntry v url,
             failEntry showE v url (JsError.transport e)] }) :=
  loggedBasic_fail showE baseURL url data config t v τ e h

/-- Witness for C5: a failing PUT logs the before and error entries and
rethrows the transport failure. -/
theorem logging_failure_observability_witness :
    callVerb Verb.put (LoggingDecorator natShow (BasicHttpService "https://api" tBad))
        "/games" (some 2) (some 9) τ0 =
      (Except.error (JsError.transport 1),
       { τ0 with
          calls := 1
          clock := τ0.clock + tBad.elapsed 1
          received := τ0.received ++
            [(Verb.put, "/games", Verb.put.payload (some 2), some 9)]
          logs := τ0.logs ++
            [beforeEntry Verb.put "/games",
             failEntry natShow Verb.put "/games" (JsError.transport 1)] }) := by
  exact logging_failure_observability natShow "https://api" "/games" (some 2)
    (some 9) tBad Verb.put τ0 1 rfl

/-- Claim C6: for every verb and path, when the wrapped delegate (the
executor) succeeds, the logging wrapper emits exactly one informational
"before" entry and one informational "after-success" entry, in that
order, and returns the delegate's result value unchanged. -/
theorem logging_success_observability (showE : JsError ε → String)
    (baseURL url : String) (data : Option Body) (config : Option Cfg)
    (t : Transport ε α) (v : Verb) (τ : Trace Cfg Body) (r : α)
    (h : t.behavior (τ.calls + 1) = Except.ok r) :
    callVerb v (LoggingDecorator showE (BasicHttpService baseURL t))
        url data config τ =
      (Except.ok r,
       { τ with
          calls := τ.calls + 1
          clock := τ.clock + t.elapsed (τ.calls + 1)
          received := τ.received ++ [(v, url, v.payload data, config)]
          logs := τ.logs ++ [beforeEntry v url, successEntry v url] }) :=
  loggedBasic_ok showE baseURL url data config t v τ r h

/-- Witness for C6: a successful GET logs the before and after-success
entries and returns the value unchanged. -/
theorem logging_success_observability_witness :
    callVerb Verb.get (LoggingDecorator natShow (BasicHttpService "https://api" tOk))
        "/games" none none τ0 =
      (Except.ok 7,
       { τ0 with
          calls := 1
          clock := τ0.clock + tOk.elapsed 1
          received := τ0.received ++
            [(Verb.get, "/games", Verb.get.payload none, none)]
          logs := τ0.logs ++
            [beforeEntry Verb.get "/games", successEntry Verb.get "/games"] }) := by
  exact logging_success_observability natShow "https://api" "/games" none none
    tOk Verb.get τ0 7 rfl

/-- Counterexample to C3 as stated: on a failing call through the
timing wrapper no timing record at all is emitted — the delegate's
rejection bypasses the `.then` continuation — so "exactly one timing
record regardless of outcome" is false. -/
theorem timing_failure_no_record :
    (callVerb Verb.get
        (TimingDecorator (LoggingDecorator natShow (BasicHttpService "https://api" tBad)))
        "/games" none none τ0).1 = Except.error (JsError.transport 1) ∧
    ((callVerb Verb.get
        (TimingDecorator (LoggingDecorator natShow (BasicHttpService "https://api" tBad)))
        "/games" none none τ0).2).logs.countP
        (fun l => l.sev == Severity.debug) = 0 := by
  exact ⟨rfl, rfl⟩

/-- Claim C3 (amended): a call through the timing wrapper emits exactly
one timing record — a debug entry tagged with the verb name and the
elapsed duration in milliseconds — when the wrapped delegate succeeds,
and none when it fails. -/
theorem timing_record_on_success_only (showE : JsError ε → String)
    (baseURL url : String) (data : Option Body) (config : Option Cfg)
    (t : Transport ε α) (v : Verb) (τ : Trace Cfg Body) :
    ((callVerb v
        (TimingDecorator (LoggingDecorator showE (BasicHttpService baseURL t)))
        url data config τ).2).logs.filter (fun l => l.sev == Severity.debug) =
      τ.logs.filter (fun l => l.sev == Severity.debug) ++
        (match t.behavior (τ.calls + 1) with
         | Except.ok _ => [timingEntry v (t.elapsed (τ.calls + 1))]
         | Except.error _ => []) := by
  rcases hb : t.behavior (τ.calls + 1) with e | r
  · rw [innerStack_fail showE baseURL url data config t v τ e hb]
    simp [beforeEntry, failEntry, List.filter_append]
  · rw [innerStack_ok showE baseURL url data config t v τ r hb]
    simp [beforeEntry, successEntry, timingEntry, List.filter_append]

/-- Claim C4: `createHttpService` builds exactly the fixed nesting
Executor ⊂ Logging ⊂ Timing ⊂ Retry and returns the outermost retry
layer; consequently a single (first-attempt-successful) call runs
Retry → Timing → Logging → Executor, so the logging "before" entry is
the first event emitted and its "after" entry precedes the timing
entry emitted when control returns to the timing layer. -/
theorem composition_order (showE : JsError ε → String) (baseURL : String)
    (t : Transport ε α) :
    (createHttpService baseURL showE t : Service ε Cfg Body α) =
      RetryDecorator
        (TimingDecorator (LoggingDecorator showE (BasicHttpService baseURL t)))
        3 ∧
    ∀ (v : Verb) (url : String) (data : Option Body) (config : Option Cfg)
      (τ : Trace Cfg Body) (r : α), τ.calls = 0 →
      t.behavior 1 = Except.ok r →
      callVerb v (createHttpService baseURL showE t) url data config τ =
        (Except.ok r,
         { τ with
            calls := 1
            clock := τ.clock + t.elapsed 1
            received := τ.received ++ [(v, url, v.payload data, config)]
            logs := τ.logs ++
              [beforeEntry v url, successEntry v url,
               timingEntry v (t.elapsed 1)] }) := by
  constructor
  · rfl
  · intro v url data config τ r hτ hok1
    have hb : t.behavior (τ.calls + 1) = Except.ok r := by rw [hτ]; exact hok1
    have hstep := innerStack_ok showE baseURL url data config t v τ r hb
    have hcs : (createHttpService baseURL showE t : Service ε Cfg Body α) =
        composedService showE baseURL t 3 := rfl
    rw [hcs, callVerb_composedService, retryOperationAux,
      if_pos (by omega : 1 ≤ 3)]
    simp only [hstep]
    simp [hτ]

/-- Witness for C4: the composed service at concrete inputs equals the
explicit four-layer nesting, and one successful call leaves exactly
the before / after-success / timing log sequence. -/
theorem composition_order_witness :
    (createHttpService "https://api" natShow tOk : Service Nat Nat Nat Nat) =
      RetryDecorator
        (TimingDecorator (LoggingDecorator natShow (BasicHttpService "https://api" tOk)))
        3 ∧
    callVerb Verb.get (createHttpService "https://api" natShow tOk)
        "/games" none none τ0 =
      (Except.ok 7,
       { τ0 with
          calls := 1
          clock := τ0.clock + tOk.elapsed 1
          received := τ0.received ++
            [(Verb.get, "/games", Verb.get.payload none, none)]
          logs := τ0.logs ++
            [beforeEntry Verb.get "/games", successEntry Verb.get "/games",
             timingEntry Verb.get (tOk.elapsed 1)] }) := by
  exact ⟨(composition_order natShow "https://api" tOk).1,
    (composition_order natShow "https://api" tOk).2 Verb.get "/games" none none
      τ0 7 rfl rfl⟩

/-- Claim C8: for every verb and every options value (and payload), the
wrappers forward the arguments unchanged, so every receipt of the
innermost executor across the whole composed call is exactly the tuple
the caller supplied — some number of identical copies, one per retry
attempt, and nothing else. -/
theorem options_forwarded_unchanged (showE : JsError ε → String)
    (baseURL url : String) (data : Option Body) (config : Option Cfg)
    (t : Transport ε α) (v : Verb) (maxRetries : Nat) (τ : Trace Cfg Body) :
    ∃ m, ((callVerb v (composedService showE baseURL t maxRetries)
        url data config τ).2).received =
      τ.received ++ List.replicate m (v, url, v.payload data, config) := by
  rw [callVerb_composedService]
  exact retryAux_received
    (callVerb v
      (TimingDecorator (LoggingDecorator showE (BasicHttpService baseURL t)))
      url data config)
    v.name (v, url, v.payload data, config)
    (fun τ' => innerStack_received showE baseURL url data config t v τ')
    maxRetries maxRetries 1 τ (by omega)

/-- Claim C9: the retry wrapper's maximum attempt count defaults to 3
and `createHttpService` instantiates it without an explicit maximum, so
the composed service has a retry budget of exactly 3 attempts: an
always-failing delegate is invoked exactly 3 times per call. -/
theorem default_retry_budget (showE : JsError ε → String) (baseURL : String)
    (t : Transport ε α) :
    (createHttpService baseURL showE t : Service ε Cfg Body α) =
      composedService showE baseURL t 3 ∧
    ∀ (errOf : Nat → ε), (∀ n, t.behavior n = Except.error (errOf n)) →
      ∀ (v : Verb) (url : String) (data : Option Body) (config : Option Cfg)
        (τ : Trace Cfg Body), τ.calls = 0 →
        ((callVerb v (createHttpService baseURL showE t)
            url data config τ).2).calls = 3 := by
  constructor
  · rfl
  · intro errOf hfail v url data config τ hτ
    obtain ⟨τf, heq, hcalls⟩ := retryAux_exhaust showE baseURL url data config
      t v 3 errOf hfail 2 1 τ (by omega) (by omega) (by omega) (by omega)
    have hcs : (createHttpService baseURL showE t : Service ε Cfg Body α) =
        composedService showE baseURL t 3 := rfl
    rw [hcs, callVerb_composedService, heq]
    exact hcalls

/-- Witness for C9: with an always-failing transport the composed
service performs exactly 3 invocations. -/
theorem default_retry_budget_witness :
    (createHttpService "https://api" natShow tBad : Service Nat Nat Nat Nat) =
      composedService natShow "https://api" tBad 3 ∧
    ((callVerb Verb.delete (createHttpService "https://api" natShow tBad)
        "/games" none none τ0).2).calls = 3 := by
  exact ⟨(default_retry_budget natShow "https://api" tBad).1,
    (default_retry_budget natShow "https://api" tBad).2 (fun n => n)
      (fun n => rfl) Verb.delete "/games" none none τ0 rfl⟩

/-- Players round-trip legacy → modern → legacy. -/
theorem adaptPlayer_round (p : LegacyPlayer) :
    adaptPlayerToLegacy (adaptPlayer p) = p := rfl

/-- Players round-trip modern → legacy → modern. -/
theorem adaptPlayerToLegacy_round (p : Player) :
    adaptPlayer (adaptPlayerToLegacy p) = p := rfl

/-- Claim C10: the adapter's two game conversions are mutually inverse:
legacy → modern → legacy is the identity field by field (`is_active`
recovered from the active/inactive status), and likewise
modern → legacy → modern. -/
theorem adapter_round_trip :
    (∀ lg : LegacyGameData, (adaptToLegacy (adaptGame lg).1).1 = lg) ∧
    (∀ g : GameData, (adaptGame (adaptToLegacy g).1).1 = g) := by
  constructor
  · intro lg
    rcases lg with ⟨gid, gname, plist, factive, cdate⟩
    cases factive <;>
      simp [adaptGame, adaptToLegacy, List.map_map, Function.comp_def,
        adaptPlayer_round]
  · intro g
    rcases g with ⟨gid, gtitle, plist, status, cdate⟩
    cases status <;>
      simp [adaptGame, adaptToLegacy, List.map_map, Function.comp_def,
        adaptPlayerToLegacy_round]
